import Mathlib

/-!
Shallow embedding of `src/main.py` of the astro-vibe-bot repository, together
with theorems settling the frozen claims about it.

Conventions of the embedding:
* Python strings are Lean `String`s; `str.strip()`, `str.title()`, `str.split()`,
  `str.replace` and `"sep".join` are re-implemented below, faithful to Python
  semantics for the ASCII and Ukrainian-Cyrillic alphabet this program uses.
* Python dicts that the program builds with known string keys become association
  lists in declaration order (Python dicts preserve insertion order).
* External collaborators (telethon client, feedparser, the OpenAI client, the
  Telegram bot API) appear as explicit oracle inputs: a structure of outcomes
  for the channel fetch, a list of feed entries for the RSS feed, the parsed
  JSON value (or parse failure) of a completion response, and a send oracle for
  outbound messages.  A raised Python exception is an `Except.error`.
* SQLite-backed state (the daily-context cache) becomes an association list
  threaded through the functions; an SQL upsert is an in-place replace.
-/

/-- Characters removed by Python's `str.strip()` (the ASCII whitespace range;
the program's strings contain no exotic Unicode whitespace). -/
def pyIsSpace (c : Char) : Bool :=
  c = ' ' || c = '\t' || c = '\n' || c = '\r' || c = '\x0b' || c = '\x0c'

/-- Removes the trailing characters satisfying `p` from a character list. -/
def dropTrailing (p : Char → Bool) : List Char → List Char
  | [] => []
  | c :: t =>
    match dropTrailing p t with
    | [] => if p c then [] else [c]
    | r => c :: r

/-- Embeds Python `str.strip()` at the character-list level: remove leading and
trailing whitespace. -/
def stripData (l : List Char) : List Char :=
  dropTrailing pyIsSpace (l.dropWhile pyIsSpace)

/-- Embeds Python `str.strip()`. -/
def pyStrip (s : String) : String := ⟨stripData s.data⟩

/-- Worker for `pySplitWs`: split on runs of whitespace, accumulating the
current word reversed. -/
def pySplitWsAux : List Char → List Char → List String
  | [], acc => if acc = [] then [] else [⟨acc.reverse⟩]
  | c :: rest, acc =>
    if pyIsSpace c then
      if acc = [] then pySplitWsAux rest []
      else ⟨acc.reverse⟩ :: pySplitWsAux rest []
    else pySplitWsAux rest (c :: acc)

/-- Embeds Python `str.split()` with no argument: split on whitespace runs,
never producing empty tokens. -/
def pySplitWs (s : String) : List String := pySplitWsAux s.data []

/-- Embeds Python `"sep".join(parts)`. -/
def joinWith (sep : String) : List String → String
  | [] => ""
  | [s] => s
  | s :: rest => s ++ sep ++ joinWith sep rest

/-- Does the second list start with the first? -/
def listStartsWith : List Char → List Char → Bool
  | [], _ => true
  | _ :: _, [] => false
  | p :: ps, c :: cs => p = c && listStartsWith ps cs

/-- Finds the first occurrence of `pat` and returns the text before and after
it; `none` when `pat` does not occur.  Embeds the search underlying Python's
`in` operator and `str.split(sep, 1)`. -/
def findSplit (pat : List Char) : List Char → Option (List Char × List Char)
  | [] => none
  | c :: rest =>
    if listStartsWith pat (c :: rest) then some ([], (c :: rest).drop pat.length)
    else
      match findSplit pat rest with
      | some (pre, post) => some (c :: pre, post)
      | none => none

/-- Embeds Python `s.split(sep, 1)` for a non-empty separator. -/
def pySplitOnce (s sep : String) : List String :=
  match findSplit sep.data s.data with
  | none => [s]
  | some (pre, post) => [⟨pre⟩, ⟨post⟩]

/-- Embeds Python `pat in s` for strings. -/
def strContains (s pat : String) : Bool := (findSplit pat.data s.data).isSome

/-- Does `s` begin with `pat`?  Used to state the composer-ordering claim. -/
def beginsWith (s pat : String) : Bool := listStartsWith pat.data s.data

/-- Single-character lowercasing as Python performs it, for ASCII and the
Ukrainian Cyrillic alphabet (basic range U+0410..U+044F plus Є І Ї Ґ). -/
def pyLowerChar (c : Char) : Char :=
  if 'A' ≤ c ∧ c ≤ 'Z' then Char.ofNat (c.toNat + 32)
  else if 'А' ≤ c ∧ c ≤ 'Я' then Char.ofNat (c.toNat + 32)
  else if c = 'Є' then 'є'
  else if c = 'І' then 'і'
  else if c = 'Ї' then 'ї'
  else if c = 'Ґ' then 'ґ'
  else c

/-- Single-character uppercasing as Python performs it, for ASCII and the
Ukrainian Cyrillic alphabet. -/
def pyUpperChar (c : Char) : Char :=
  if 'a' ≤ c ∧ c ≤ 'z' then Char.ofNat (c.toNat - 32)
  else if 'а' ≤ c ∧ c ≤ 'я' then Char.ofNat (c.toNat - 32)
  else if c = 'є' then 'Є'
  else if c = 'і' then 'І'
  else if c = 'ї' then 'Ї'
  else if c = 'ґ' then 'Ґ'
  else c

/-- Is the character cased (a Latin or Ukrainian letter)?  Uncased characters
delimit words for `str.title()`. -/
def pyIsCased (c : Char) : Bool :=
  ('A' ≤ c && c ≤ 'Z') || ('a' ≤ c && c ≤ 'z') ||
  ('А' ≤ c && c ≤ 'я') ||
  c = 'Є' || c = 'є' || c = 'І' || c = 'і' || c = 'Ї' || c = 'ї' || c = 'Ґ' || c = 'ґ'

/-- Worker for `pyTitle`: the Bool records whether the previous character was
cased. -/
def titleGo : List Char → Bool → List Char
  | [], _ => []
  | c :: t, prevCased =>
    (if pyIsCased c then (if prevCased then pyLowerChar c else pyUpperChar c) else c) ::
      titleGo t (pyIsCased c)

/-- Embeds Python `str.title()`: uppercase each character that follows an
uncased character, lowercase every other cased character. -/
def pyTitle (s : String) : String := ⟨titleGo s.data false⟩

/-- The `SIGN_NAME_UA` table of `src/main.py`: canonical key to Ukrainian
display name, in declaration order. -/
def SIGN_NAME_UA : List (String × String) :=
  [("Aries", "Овен"), ("Taurus", "Телець"), ("Gemini", "Близнюки"), ("Cancer", "Рак"),
   ("Leo", "Лев"), ("Virgo", "Діва"), ("Libra", "Терези"), ("Scorpio", "Скорпіон"),
   ("Sagittarius", "Стрілець"), ("Capricorn", "Козеріг"), ("Aquarius", "Водолій"),
   ("Pisces", "Риби")]

/-- The `SIGN_EMOJI` table of `src/main.py`. -/
def SIGN_EMOJI : List (String × String) :=
  [("Aries", "♈"), ("Taurus", "♉"), ("Gemini", "♊"), ("Cancer", "♋"),
   ("Leo", "♌"), ("Virgo", "♍"), ("Libra", "♎"), ("Scorpio", "♏"),
   ("Sagittarius", "♐"), ("Capricorn", "♑"), ("Aquarius", "♒"), ("Pisces", "♓")]

/-- First-match association-list lookup; embeds Python `dict.get(k)` returning
`None` on a miss (keys in the program's dicts are unique). -/
def alistGet? {α : Type} : List (String × α) → String → Option α
  | [], _ => none
  | (k, v) :: rest, key => if k = key then some v else alistGet? rest key

/-- The `SIGN_NAME_EN` table of `src/main.py`: the inverted UA table
(`{ua: en for en, ua in SIGN_NAME_UA.items()}`). -/
def SIGN_NAME_EN : List (String × String) := SIGN_NAME_UA.map (fun p => (p.2, p.1))

/-- `normalize_sign` from `src/main.py`: strip and title-case the input, then
map a Ukrainian display name back to its canonical key, defaulting to the
normalized token itself. -/
def normalize_sign (sign : String) : String :=
  let normalized := pyTitle (pyStrip sign)
  (alistGet? SIGN_NAME_EN normalized).getD normalized

/-- `display_sign` from `src/main.py`. -/
def display_sign (sign : String) : String :=
  (alistGet? SIGN_NAME_UA sign).getD sign

/-- `display_sign_with_emoji` from `src/main.py`:
`f"{SIGN_EMOJI.get(sign, '')} {display_sign(sign)}".strip()`. -/
def display_sign_with_emoji (sign : String) : String :=
  pyStrip ((alistGet? SIGN_EMOJI sign).getD "" ++ " " ++ display_sign sign)

/-- The canonical sign keys: the keys of `SIGN_NAME_UA`. -/
def canonical_sign_keys : List String := SIGN_NAME_UA.map Prod.fst

/-- Embeds Python `token.isdigit()` for the ASCII digits `int()` accepts. -/
def pyIsDigitStr (t : String) : Bool := !t.data.isEmpty && t.data.all Char.isDigit

/-- Embeds `raw_value.replace(",", " ")`: a single-character replace is a
character map. -/
def pyReplaceCommaWithSpace (s : String) : String :=
  ⟨s.data.map (fun c => if c = ',' then ' ' else c)⟩

/-- Embeds `int(token)` for an all-digit token. -/
def pyStrToNat (t : String) : ℕ :=
  t.data.foldl (fun acc c => 10 * acc + (c.toNat - 48)) 0

/-- `parse_admin_ids` from `src/main.py`: `None` or `""` give the empty set;
otherwise commas become spaces, the string is split on whitespace, and every
all-digit token is collected into a set of ids. -/
def parse_admin_ids (raw_value : Option String) : Finset ℕ :=
  match raw_value with
  | none => ∅
  | some s =>
    if s = "" then ∅
    else (((pySplitWs (pyReplaceCommaWithSpace s)).filter pyIsDigitStr).map pyStrToNat).toFinset

/-- The authorization gate of `handle_broadcast_now` in `src/main.py`:
`if admin_ids and message.from_user.id not in admin_ids` — reject only when the
allow-list is non-empty and the caller is not in it. -/
def broadcast_gate_rejects (admin_ids : Finset ℕ) (caller_id : ℕ) : Bool :=
  decide (admin_ids ≠ ∅) && decide (caller_id ∉ admin_ids)

/-- A raised Python exception, carried as its description. -/
abbrev PyErr := String

/-- Embeds `urllib.parse.urlparse(channel).path` for the channel strings this
program passes: a handle or link without a scheme parses entirely into `path`
(after removing query and fragment); with a scheme, `path` is the part after
the network location. -/
def urlparsePath (s : String) : String :=
  let noFrag := (pySplitOnce s "#").headD s
  let noQuery := (pySplitOnce noFrag "?").headD noFrag
  match findSplit ("://".data) noQuery.data with
  | none => noQuery
  | some (_, rest) =>
    match findSplit (['/']) rest with
    | none => ""
    | some (_, tail) => ⟨'/' :: tail⟩

/-- `extract_invite_hash` from `src/main.py`.  Note the `joinchat` branch
checks membership of `"joinchat"` but splits on `"joinchat/"`; a path that
contains the former without the latter makes `[1]` raise an `IndexError`,
modelled as `Except.error`. -/
def extract_invite_hash (channel : String) : Except PyErr (Option String) :=
  if channel = "" then .ok none
  else if strContains channel "t.me/+" then
    match findSplit ("t.me/+".data) channel.data with
    | some (_, post) => .ok (some ((pySplitOnce ⟨post⟩ "?").headD ""))
    | none => .ok none
  else
    let path := urlparsePath channel
    if strContains path "joinchat" then
      match findSplit ("joinchat/".data) path.data with
      | some (_, post) => .ok (some ((pySplitOnce ⟨post⟩ "/").headD ""))
      | none => .error "IndexError"
    else .ok none

/-- Python truthiness of an optional string (`None` and `""` are falsy). -/
def optStrTruthy : Option String → Bool
  | none => false
  | some s => s != ""

/-- Python truthiness of an optional integer (`None` and `0` are falsy). -/
def optNatTruthy : Option Nat → Bool
  | none => false
  | some n => n != 0

/-- Outcomes of the telethon collaborator for one channel-fetch attempt.
Entities are abstracted to numeric ids; `iterRes` is the message list the
client yields for an entity (the configured limit is applied by the client),
where a `none` item is a message whose `message` attribute is `None`. -/
structure TgEnv where
  telethonImportOk : Bool
  startExc : Option PyErr
  inviteRes : Except PyErr (List Nat)
  getEntityRes : Except PyErr Nat
  iterRes : Nat → Except PyErr (List (Option String))

/-- `fetch_telegram_messages` from `src/main.py`.  Missing or falsy
configuration and a failed telethon import return `[]`; a failed invite import
is swallowed (entity stays `None`); but exceptions from `client.start()`,
`get_entity` and `iter_messages` propagate.  Each non-empty message text is
stripped and internally whitespace-normalized. -/
def fetch_telegram_messages (env : TgEnv) (api_id : Option Nat) (api_hash : Option String)
    (channel : Option String) : Except PyErr (List String) :=
  if !optNatTruthy api_id || !optStrTruthy api_hash || !optStrTruthy channel then .ok []
  else if !env.telethonImportOk then .ok []
  else
    match env.startExc with
    | some e => .error e
    | none =>
      match extract_invite_hash (channel.getD "") with
      | .error e => .error e
      | .ok inviteHash =>
        let entityFromInvite : Option Nat :=
          match inviteHash with
          | some h =>
            if h = "" then none
            else
              match env.inviteRes with
              | .ok chats => chats.head?
              | .error _ => none
          | none => none
        let entityRes : Except PyErr Nat :=
          match entityFromInvite with
          | some e => .ok e
          | none => env.getEntityRes
        match entityRes with
        | .error e => .error e
        | .ok entity =>
          match env.iterRes entity with
          | .error e => .error e
          | .ok raws =>
            .ok (raws.filterMap (fun m =>
              let text := pyStrip (m.getD "")
              if text = "" then none
              else some (joinWith " " (pySplitWs text))))

/-- The `telegram_source` dict built in `main()`. -/
structure TelegramSource where
  api_id : Option Nat
  api_hash : Option String
  channel : Option String
  limit : Nat

/-- One feedparser entry: `entry.get("title")` and `entry.get("summary")`. -/
structure RssEntry where
  title : Option String
  summary : Option String

/-- The feed-digest items built inside `generate_daily_context`: first 10
entries, keeping `"- title: summary"` lines where either part is non-empty
after stripping. -/
def rss_items (entries : List RssEntry) : List String :=
  (entries.take 10).filterMap (fun e =>
    let title := pyStrip (e.title.getD "")
    let summary := pyStrip (e.summary.getD "")
    if title = "" ∧ summary = "" then none
    else some ("- " ++ title ++ ": " ++ summary))

/-- The feed digest: joined items, or the no-news sentinel when empty. -/
def rss_blob (entries : List RssEntry) : String :=
  let items := rss_items entries
  if items = [] then "Важливих новин немає." else joinWith "\n" items

/-- The news-aggregation stage of `generate_daily_context` (the `news_blob`
computation): channel source first when configured, feed source as fallback
when the channel yields no messages, fixed sentinel otherwise.  `rssEntries`
is what `feedparser.parse(rss_url).entries` returns. -/
def compute_news_blob (env : TgEnv) (telegram_source : Option TelegramSource)
    (rss_url : Option String) (rssEntries : List RssEntry) : Except PyErr String :=
  match telegram_source with
  | some src =>
    if optStrTruthy src.channel then
      match fetch_telegram_messages env src.api_id src.api_hash src.channel with
      | .error e => .error e
      | .ok messages =>
        if messages ≠ [] then .ok (joinWith "\n" (messages.map (fun m => "- " ++ m)))
        else if optStrTruthy rss_url then .ok (rss_blob rssEntries)
        else .ok "Немає налаштованого джерела новин."
    else if optStrTruthy rss_url then .ok (rss_blob rssEntries)
    else .ok "Немає налаштованого джерела новин."
  | none =>
    if optStrTruthy rss_url then .ok (rss_blob rssEntries)
    else .ok "Немає налаштованого джерела новин."

/-- A parsed JSON value, as `json.loads` would produce it (numbers modelled as
integers; floats do not occur in the claims). -/
inductive JsonVal
  | jnull
  | jbool (b : Bool)
  | jnum (n : Int)
  | jstr (s : String)
  | jarr (xs : List JsonVal)
  | jobj (fields : List (String × JsonVal))

/-- Python truthiness of a JSON value. -/
def jTruthy : JsonVal → Bool
  | .jnull => false
  | .jbool b => b
  | .jnum n => n != 0
  | .jstr s => s != ""
  | .jarr xs => !xs.isEmpty
  | .jobj fs => !fs.isEmpty

/-- Embeds `payload.get(key, default)` on a parsed JSON object. -/
def pyDictGetD (fields : List (String × JsonVal)) (key : String) (dflt : JsonVal) : JsonVal :=
  (alistGet? fields key).getD dflt

/-- The context dict returned by `generate_daily_context` and cached per date
key: the three fields hold whatever JSON the provider put there. -/
structure DailyContext where
  affirmation : JsonVal
  global_summary : JsonVal
  vibes : JsonVal

/-- Error kinds that propagate out of `generate_daily_context`. -/
inductive GenErr
  | fetch (e : PyErr)
  | jsonDecode
  | attrGet
deriving DecidableEq

/-- The synthesis stage of `generate_daily_context` from `src/main.py`.
`newsRes` is the result of the news-aggregation stage (its exception
propagates); `parsed` is the `json.loads` outcome on the first completion's
body (`none` = `JSONDecodeError`); `secondContent` is the body of the second
completion call when one is made.  A parsed non-object payload raises
`AttributeError` at `payload.get`.  The returned Bool records whether the
second completion call was issued.  When the raw `global_summary` is truthy
the second call's body replaces it after `.strip()`; otherwise the raw value
is kept and no second call happens. -/
def generate_daily_context (newsRes : Except PyErr String) (parsed : Option JsonVal)
    (secondContent : String) : Except GenErr (DailyContext × Bool) :=
  match newsRes with
  | .error e => .error (.fetch e)
  | .ok _ =>
    match parsed with
    | none => .error .jsonDecode
    | some (.jobj fields) =>
      let raw := pyDictGetD fields "global_summary" (.jstr "")
      if jTruthy raw then
        .ok ({ affirmation := pyDictGetD fields "affirmation" (.jstr ""),
               global_summary := .jstr (pyStrip secondContent),
               vibes := pyDictGetD fields "vibes" (.jobj []) }, true)
      else
        .ok ({ affirmation := pyDictGetD fields "affirmation" (.jstr ""),
               global_summary := raw,
               vibes := pyDictGetD fields "vibes" (.jobj []) }, false)
    | some _ => .error .attrGet

/-- The `daily_context` table: date key to context.  JSON serialization
round-trips these values, so the stored object is the context itself. -/
abbrev Cache := List (String × DailyContext)

/-- `load_today_context` from `src/main.py`: select by date key. -/
def load_today_context (today_key : String) : Cache → Option DailyContext
  | [] => none
  | (k, v) :: rest => if k = today_key then some v else load_today_context today_key rest

/-- `save_today_context` from `src/main.py`: SQL upsert on the date key. -/
def save_today_context (today_key : String) (context : DailyContext) : Cache → Cache
  | [] => [(today_key, context)]
  | (k, v) :: rest =>
    if k = today_key then (k, context) :: rest
    else (k, v) :: save_today_context today_key context rest

/-- `get_or_generate_context` from `src/main.py` for a fixed date key: return
the cached context on a hit (a stored context always has three keys, hence is
truthy); on a miss run generation, persist, return.  The result carries the
(context, generated?, saved?) observation plus the cache after the call; a
generation error propagates and leaves the cache unchanged. -/
def get_or_generate_context (genRes : Except GenErr (DailyContext × Bool)) (today_key : String)
    (cache : Cache) : Except GenErr (DailyContext × Bool × Bool) × Cache :=
  match load_today_context today_key cache with
  | some cached => (.ok (cached, false, false), cache)
  | none =>
    match genRes with
    | .error e => (.error e, cache)
    | .ok (context, _) => (.ok (context, true, true), save_today_context today_key context cache)

/-- One sign's profile from `config/signs.yaml`. -/
structure SignData where
  traits : List String
  specificity : String
deriving DecidableEq

/-- The loaded signs dict, in declaration order. -/
abbrev SignsCfg := List (String × SignData)

/-- A well-formed daily context at the shape the composer and dispatcher
consume: string affirmation and summary, string-valued vibes object. -/
structure CtxRecord where
  affirmation : String
  global_summary : String
  vibes : List (String × String)
deriving DecidableEq

/-- The placeholder substituted for a missing vibe. -/
def placeholder_vibe : String := "Вайб формується. Перевір пізніше."

/-- Embeds `vibes.get(sign, placeholder)`. -/
def vibe_for (vibes : List (String × String)) (sign : String) : String :=
  (alistGet? vibes sign).getD placeholder_vibe

/-- One sign's channel line: `f"{display_sign_with_emoji(sign)}: {vibe}"`. -/
def sign_line (vibes : List (String × String)) (sign : String) : String :=
  display_sign_with_emoji sign ++ ": " ++ vibe_for vibes sign

/-- The lines accumulated for one sign inside `build_channel_sign_messages`:
on the first iteration the truthy affirmation and summary are prepended,
followed by an empty line when either was added.  (The code's `if lines:`
check sits inside the `if first:` block; outside it the prefix list is empty,
so the guard below is equivalent.) -/
def channel_lines (context : CtxRecord) (sign : String) (first : Bool) : List String :=
  let pre : List String :=
    if first then
      (if context.affirmation ≠ "" then [context.affirmation] else []) ++
      (if context.global_summary ≠ "" then [context.global_summary] else [])
    else []
  let pre2 := if pre ≠ [] then pre ++ [""] else pre
  pre2 ++ [sign_line context.vibes sign]

/-- The loop of `build_channel_sign_messages`: each sign contributes
`"\n".join(lines).strip()`, and `first` is cleared after the first sign. -/
def build_channel_go (context : CtxRecord) : Bool → List String → List String
  | _, [] => []
  | first, sign :: rest =>
    pyStrip (joinWith "\n" (channel_lines context sign first)) ::
      build_channel_go context false rest

/-- `build_channel_sign_messages` from `src/main.py`: iterate the catalog keys
in declared order. -/
def build_channel_sign_messages (context : CtxRecord) (signs : SignsCfg) : List String :=
  build_channel_go context true (signs.map Prod.fst)

/-- An outbound destination of `bot.send_message`: a user chat id or the
broadcast channel id. -/
inductive Dest
  | user (chat_id : Int)
  | channel (id : String)
deriving DecidableEq

/-- A row of `get_all_users()`: (user_id, chat_id, sign). -/
abbrev UserRow := Int × Int × Option String

/-- The message `broadcast_daily_vibes` sends to one registered user: the
set-your-sign prompt when no sign is stored, otherwise the personal vibe with
the global-context trailer when the summary is non-empty. -/
def user_broadcast_message (context : CtxRecord) (sign : Option String) : String :=
  if !optStrTruthy sign then
    "Вкажи свій знак зодіаку: /set_sign <sign>, щоб отримувати вайб дня."
  else
    let s := sign.getD ""
    let vibe := vibe_for context.vibes s
    let base := "Вайб дня для " ++ display_sign_with_emoji s ++ ":\n" ++ vibe
    if context.global_summary ≠ "" then
      base ++ "\n\nГлобальний контекст: " ++ context.global_summary
    else base

/-- The ordered outbound sends of `broadcast_daily_vibes`: one message per
registered user, then each channel message when a channel is configured.
Message contents do not depend on send outcomes, so the plan is computed
up front. -/
def broadcast_plan (context : CtxRecord) (users : List UserRow) (channel_id : Option String)
    (signs : SignsCfg) : List (Dest × String) :=
  users.map (fun u => (Dest.user u.2.1, user_broadcast_message context u.2.2)) ++
  (if optStrTruthy channel_id then
    (build_channel_sign_messages context signs).map (fun m => (Dest.channel (channel_id.getD ""), m))
  else [])

/-- Executes sends in order against the messaging collaborator (`send` returns
whether the call succeeds).  No send is wrapped in a handler in the source, so
a failure raises: the delivered list stops there and the Bool reports whether
the whole run completed. -/
def runSends (send : Dest → String → Bool) : List (Dest × String) → List (Dest × String) × Bool
  | [] => ([], true)
  | (d, m) :: rest =>
    if send d m then
      let r := runSends send rest
      ((d, m) :: r.1, r.2)
    else ([], false)

/-- The delivery part of `broadcast_daily_vibes` from `src/main.py`, given
today's context (as returned by the orchestrator): returns the delivered
messages in order and whether the broadcast ran to completion. -/
def broadcast_daily_vibes (send : Dest → String → Bool) (context : CtxRecord)
    (users : List UserRow) (channel_id : Option String) (signs : SignsCfg) :
    List (Dest × String) × Bool :=
  runSends send (broadcast_plan context users channel_id signs)

/-- One user-visible effect of the `/broadcast_now` handler. -/
inductive BnEffect
  | reply (text : String)
  | channelSend (text : String)
deriving DecidableEq

/-- `handle_broadcast_now` from `src/main.py`: reject per the admin gate,
report a missing broadcast channel, otherwise obtain today's context (an
orchestrator error propagates) and send every channel message followed by a
confirmation reply.  (Channel sends are assumed to succeed here; send
failures are the subject of the dispatcher model.) -/
def handle_broadcast_now (admin_ids : Finset ℕ) (caller_id : ℕ) (channel_id : Option String)
    (ctxRes : Except GenErr CtxRecord) (signs : SignsCfg) : Except GenErr (List BnEffect) :=
  if broadcast_gate_rejects admin_ids caller_id then
    .ok [.reply "Недостатньо прав для цієї команди."]
  else if !optStrTruthy channel_id then
    .ok [.reply "BROADCAST_CHANNEL не налаштовано."]
  else
    match ctxRes with
    | .error e => .error e
    | .ok context =>
      .ok ((build_channel_sign_messages context signs).map BnEffect.channelSend ++
        [.reply "Надіслано в канал."])

/-! Helper lemmas about the Python-string embedding. -/

/-- Unfolding equation for `dropTrailing` on a cons cell. -/
theorem dropTrailing_cons (p : Char → Bool) (c : Char) (t : List Char) :
    dropTrailing p (c :: t) =
      match dropTrailing p t with
      | [] => if p c then [] else [c]
      | r => c :: r := rfl

/-- The head that survives `dropWhile` fails the predicate. -/
theorem avb_dropWhile_head (p : Char → Bool) (l : List Char) :
    ∀ c ∈ (l.dropWhile p).head?, p c = false := by
  induction l with
  | nil => intro c h; simp at h
  | cons a t ih =>
    intro c h
    by_cases hp : p a
    · rw [List.dropWhile_cons_of_pos hp] at h
      exact ih c h
    · rw [List.dropWhile_cons_of_neg hp] at h
      rw [Option.mem_def] at h
      have : a = c := by simpa using h
      subst this
      simpa using hp

/-- `dropTrailing` is empty or preserves the head. -/
theorem avb_dropTrailing_head (p : Char → Bool) (l : List Char) :
    dropTrailing p l = [] ∨ (dropTrailing p l).head? = l.head? := by
  cases l with
  | nil => exact Or.inl rfl
  | cons c t =>
    rw [dropTrailing_cons]
    cases h : dropTrailing p t with
    | nil =>
      by_cases hp : p c
      · exact Or.inl (by simp [hp])
      · exact Or.inr (by simp [hp])
    | cons a r => exact Or.inr rfl

/-- The last element surviving `dropTrailing` fails the predicate. -/
theorem avb_dropTrailing_getLast (p : Char → Bool) (l : List Char) :
    ∀ c ∈ (dropTrailing p l).getLast?, p c = false := by
  induction l with
  | nil => intro c h; simp [dropTrailing] at h
  | cons a t ih =>
    intro c h
    rw [dropTrailing_cons] at h
    cases hdt : dropTrailing p t with
    | nil =>
      rw [hdt] at h
      by_cases hp : p a
      · simp [hp] at h
      · simp [hp] at h
        have : a = c := by simpa [Option.mem_def] using h
        subst this
        simpa using hp
    | cons b r =>
      rw [hdt] at h
      rw [show (match (b :: r : List Char) with
            | [] => if p a then [] else [a]
            | r => a :: r) = a :: b :: r from rfl] at h
      rw [List.getLast?_cons_cons] at h
      rw [← hdt] at h
      exact ih c h

/-- `dropTrailing` fixes a list whose last element fails the predicate. -/
theorem avb_dropTrailing_eq_self (p : Char → Bool) (l : List Char)
    (h : ∀ c ∈ l.getLast?, p c = false) : dropTrailing p l = l := by
  induction l with
  | nil => rfl
  | cons a t ih =>
    cases t with
    | nil =>
      have hpa : p a = false := h a rfl
      simp [dropTrailing_cons, dropTrailing, hpa]
    | cons b t2 =>
      have ht : dropTrailing p (b :: t2) = b :: t2 := by
        apply ih
        intro c hc
        apply h
        rwa [List.getLast?_cons_cons]
      rw [dropTrailing_cons, ht]

/-- `stripData` fixes a list with non-space boundary characters. -/
theorem avb_stripData_eq_self (l : List Char)
    (h1 : ∀ c ∈ l.head?, pyIsSpace c = false)
    (h2 : ∀ c ∈ l.getLast?, pyIsSpace c = false) : stripData l = l := by
  have hd : l.dropWhile pyIsSpace = l := by
    cases l with
    | nil => rfl
    | cons a t =>
      have ha : pyIsSpace a = false := h1 a rfl
      exact List.dropWhile_cons_of_neg (by simp [ha])
  unfold stripData
  rw [hd]
  exact avb_dropTrailing_eq_self _ _ h2

/-- The head of a stripped list is not a space. -/
theorem avb_stripData_head (l : List Char) :
    ∀ c ∈ (stripData l).head?, pyIsSpace c = false := by
  intro c h
  unfold stripData at h
  rcases avb_dropTrailing_head pyIsSpace (l.dropWhile pyIsSpace) with h0 | h0
  · rw [h0] at h; simp at h
  · rw [h0] at h
    exact avb_dropWhile_head pyIsSpace l c h

/-- The last element of a stripped list is not a space. -/
theorem avb_stripData_getLast (l : List Char) :
    ∀ c ∈ (stripData l).getLast?, pyIsSpace c = false :=
  avb_dropTrailing_getLast pyIsSpace (l.dropWhile pyIsSpace)

/-- A strip-fixed list has a non-space head. -/
theorem avb_stripData_self_head (l : List Char) (h : stripData l = l) :
    ∀ c ∈ l.head?, pyIsSpace c = false := by
  intro c hc
  apply avb_stripData_head l
  rw [h]
  exact hc

/-- A strip-fixed list has a non-space last element. -/
theorem avb_stripData_self_last (l : List Char) (h : stripData l = l) :
    ∀ c ∈ l.getLast?, pyIsSpace c = false := by
  intro c hc
  apply avb_stripData_getLast l
  rw [h]
  exact hc

/-- A string with non-space boundary characters is fixed by `pyStrip`. -/
theorem avb_pyStrip_eq_self_of (s : String)
    (h1 : ∀ c ∈ s.data.head?, pyIsSpace c = false)
    (h2 : ∀ c ∈ s.data.getLast?, pyIsSpace c = false) : pyStrip s = s :=
  String.ext (avb_stripData_eq_self s.data h1 h2)

/-- A `pyStrip`-fixed string has a non-space head character. -/
theorem avb_pyStrip_self_head (s : String) (h : pyStrip s = s) :
    ∀ c ∈ s.data.head?, pyIsSpace c = false :=
  avb_stripData_self_head s.data (congrArg String.data h)

/-- A `pyStrip`-fixed string has a non-space last character. -/
theorem avb_pyStrip_self_last (s : String) (h : pyStrip s = s) :
    ∀ c ∈ s.data.getLast?, pyIsSpace c = false :=
  avb_stripData_self_last s.data (congrArg String.data h)

/-- The head character of any `pyStrip` result is not a space. -/
theorem avb_pyStrip_head (s : String) :
    ∀ c ∈ (pyStrip s).data.head?, pyIsSpace c = false :=
  avb_stripData_head s.data

/-- A non-empty string has a non-empty character list. -/
theorem avb_ne_empty_data (s : String) (h : s ≠ "") : s.data ≠ [] := by
  intro hd
  exact h (String.ext (by rw [hd]))

/-- The last character of any `pyStrip` result is not a space. -/
theorem avb_pyStrip_last (s : String) :
    ∀ c ∈ (pyStrip s).data.getLast?, pyIsSpace c = false :=
  avb_stripData_getLast s.data

/-- `pyStrip` is idempotent. -/
theorem avb_pyStrip_idem (s : String) : pyStrip (pyStrip s) = pyStrip s :=
  avb_pyStrip_eq_self_of _ (avb_pyStrip_head s) (avb_pyStrip_last s)

/-- A list prefixed by the characters of a non-empty strip-fixed string has a
non-space head. -/
theorem avb_head_of_app_left (a : String) (l : List Char) (ha1 : a ≠ "") (ha2 : pyStrip a = a) :
    ∀ c ∈ (a.data ++ l).head?, pyIsSpace c = false := by
  intro c hc
  rw [List.head?_append] at hc
  cases hda : a.data with
  | nil => exact absurd hda (avb_ne_empty_data a ha1)
  | cons x t =>
    rw [hda] at hc
    have hxc : x = c := by simpa [Option.mem_def] using hc
    subst hxc
    exact avb_pyStrip_self_head a ha2 x ((Option.mem_def).2 (by rw [hda]; rfl))

/-- A list suffixed by the characters of a non-empty strip-fixed string has a
non-space last element. -/
theorem avb_last_of_app_right (l : List Char) (b : String) (hb1 : b ≠ "") (hb2 : pyStrip b = b) :
    ∀ c ∈ (l ++ b.data).getLast?, pyIsSpace c = false := by
  intro c hc
  rw [List.getLast?_append] at hc
  cases hgb : b.data.getLast? with
  | none => exact absurd (List.getLast?_eq_none_iff.mp hgb) (avb_ne_empty_data b hb1)
  | some y =>
    rw [hgb] at hc
    have hyc : y = c := by simpa [Option.mem_def] using hc
    subst hyc
    exact avb_pyStrip_self_last b hb2 y ((Option.mem_def).2 hgb)

/-- A concatenation framed by non-empty strip-fixed strings is fixed by
`stripData`. -/
theorem avb_pyStrip_sandwich (a b : String) (mid : List Char)
    (ha1 : a ≠ "") (ha2 : pyStrip a = a) (hb1 : b ≠ "") (hb2 : pyStrip b = b) :
    stripData (a.data ++ mid ++ b.data) = a.data ++ mid ++ b.data := by
  apply avb_stripData_eq_self
  · intro c hc
    rw [List.append_assoc] at hc
    exact avb_head_of_app_left a _ ha1 ha2 c hc
  · exact avb_last_of_app_right _ b hb1 hb2

/-- Data of a triple concatenation. -/
theorem avb_append3_data (a m b : String) : (a ++ m ++ b).data = a.data ++ m.data ++ b.data := by
  rw [String.data_append, String.data_append]

/-- A sign line whose vibe text is non-empty and strip-fixed is itself fixed
by `pyStrip` (the display part is a `pyStrip` result, and a `":"` follows it
even when that part is empty). -/
theorem avb_sign_line_fixed (vibes : List (String × String)) (sg : String)
    (h1 : vibe_for vibes sg ≠ "") (h2 : pyStrip (vibe_for vibes sg) = vibe_for vibes sg) :
    pyStrip (sign_line vibes sg) = sign_line vibes sg := by
  apply String.ext
  show stripData (sign_line vibes sg).data = (sign_line vibes sg).data
  rw [show (sign_line vibes sg).data
      = (display_sign_with_emoji sg).data ++ (": ").data ++ (vibe_for vibes sg).data from
      avb_append3_data _ _ _]
  cases hdd : (display_sign_with_emoji sg).data with
  | nil =>
    rw [List.nil_append]
    apply avb_stripData_eq_self
    · intro c hc
      rw [show ((": ").data ++ (vibe_for vibes sg).data)
          = ':' :: ' ' :: (vibe_for vibes sg).data from rfl] at hc
      have hcc : ':' = c := by simpa [Option.mem_def] using hc
      subst hcc
      rfl
    · exact avb_last_of_app_right _ _ h1 h2
  | cons x t =>
    have hne : display_sign_with_emoji sg ≠ "" := by
      intro h0
      rw [h0] at hdd
      exact List.noConfusion hdd
    rw [← hdd]
    exact avb_pyStrip_sandwich (display_sign_with_emoji sg) (vibe_for vibes sg) ((": ").data)
      hne (avb_pyStrip_idem _) h1 h2

/-! Helper lemmas about the cache, the dispatcher and the composer loop. -/

/-- Loading right after an upsert of the same key yields the saved context. -/
theorem avb_load_save (key : String) (ctx : DailyContext) (cache : Cache) :
    load_today_context key (save_today_context key ctx cache) = some ctx := by
  induction cache with
  | nil => simp [save_today_context, load_today_context]
  | cons p rest ih =>
    obtain ⟨k, v⟩ := p
    by_cases hk : k = key
    · subst hk
      simp [save_today_context, load_today_context]
    · simp [save_today_context, load_today_context, hk, ih]

/-- When every send before `q` succeeds and the send of `q` fails, exactly the
messages before `q` are delivered and the run aborts. -/
theorem avb_runSends_fail_after (send : Dest → String → Bool) (xs : List (Dest × String))
    (q : Dest × String) (ys : List (Dest × String))
    (hok : ∀ p ∈ xs, send p.1 p.2 = true) (hfail : send q.1 q.2 = false) :
    runSends send (xs ++ q :: ys) = (xs, false) := by
  induction xs with
  | nil =>
    obtain ⟨d, m⟩ := q
    simp only [List.nil_append, runSends]
    rw [show send d m = false from hfail]
    simp
  | cons p rest ih =>
    obtain ⟨d, m⟩ := p
    have hp : send d m = true := hok (d, m) (by simp)
    have ihr : runSends send (rest ++ q :: ys) = (rest, false) :=
      ih (fun r hr => hok r (List.mem_cons_of_mem _ hr))
    simp [runSends, hp, ihr]

/-- After the first sign the composer emits exactly one stripped sign line per
remaining sign. -/
theorem avb_build_go_false (context : CtxRecord) (l : List String)
    (hv : ∀ sg ∈ l, pyStrip (sign_line context.vibes sg) = sign_line context.vibes sg) :
    build_channel_go context false l = l.map (sign_line context.vibes) := by
  induction l with
  | nil => rfl
  | cons sg rest ih =>
    simp only [build_channel_go, List.map_cons]
    rw [show channel_lines context sg false = [sign_line context.vibes sg] from rfl]
    rw [show joinWith "\n" [sign_line context.vibes sg] = sign_line context.vibes sg from rfl]
    rw [hv sg (by simp)]
    rw [ih (fun s hs => hv s (List.mem_cons_of_mem _ hs))]

/-- A fold that never adds keeps the accumulator; specialized to the admin-id
filter being empty. -/
theorem avb_filter_none_toFinset (l : List String) (h : ∀ t ∈ l, pyIsDigitStr t = false) :
    ((l.filter pyIsDigitStr).map pyStrToNat).toFinset = (∅ : Finset ℕ) := by
  have : l.filter pyIsDigitStr = [] := by
    rw [List.filter_eq_nil_iff]
    intro a ha
    simp [h a ha]
  rw [this]
  rfl

/-! Theorems settling the claims. -/

/-- C7: for every canonical sign key `k`, `normalize_sign (display_sign k) = k`,
and normalization is case- and whitespace-insensitive: `" aries "` and
`"ARIES"` resolve to the same key. -/
theorem c7_sign_roundtrip :
    (∀ k ∈ canonical_sign_keys, normalize_sign (display_sign k) = k) ∧
    normalize_sign " aries " = "Aries" ∧ normalize_sign "ARIES" = "Aries" := by
  refine ⟨by decide, by decide, by decide⟩

/-- C7 witness: the round trip evaluated at the concrete key `"Aries"`. -/
theorem c7_sign_roundtrip_witness :
    ("Aries" ∈ canonical_sign_keys ∧ normalize_sign (display_sign "Aries") = "Aries") ∧
    normalize_sign " aries " = "Aries" :=
  ⟨⟨by decide, c7_sign_roundtrip.1 "Aries" (by decide)⟩, c7_sign_roundtrip.2.1⟩

/-- C10: when `ADMIN_USER_IDS` is unset, empty, or holds no all-digit token,
`parse_admin_ids` returns the empty set and the `/broadcast_now` gate admits
every caller. -/
theorem c10_empty_admin_gate (raw : Option String)
    (h : raw = none ∨ raw = some "" ∨
      ∀ t ∈ pySplitWs (pyReplaceCommaWithSpace (raw.getD "")), pyIsDigitStr t = false) :
    parse_admin_ids raw = ∅ ∧
    ∀ caller_id : ℕ, broadcast_gate_rejects (parse_admin_ids raw) caller_id = false := by
  have hempty : parse_admin_ids raw = ∅ := by
    rcases h with h | h | h
    · subst h; rfl
    · subst h; rfl
    · cases raw with
      | none => rfl
      | some s =>
        by_cases hs : s = ""
        · subst hs; rfl
        · simp only [parse_admin_ids]
          rw [if_neg hs]
          exact avb_filter_none_toFinset _ h
  refine ⟨hempty, fun caller_id => ?_⟩
  rw [hempty]
  simp [broadcast_gate_rejects]

/-- C10 witness: a value with only non-numeric tokens, evaluated at caller 42. -/
theorem c10_empty_admin_gate_witness :
    parse_admin_ids (some "abc, -5, 1.5") = ∅ ∧
    broadcast_gate_rejects (parse_admin_ids (some "abc, -5, 1.5")) 42 = false :=
  ⟨(c10_empty_admin_gate (some "abc, -5, 1.5") (Or.inr (Or.inr (by decide)))).1,
   (c10_empty_admin_gate (some "abc, -5, 1.5") (Or.inr (Or.inr (by decide)))).2 42⟩

/-- C1: when a call to the orchestrator for a date key succeeds, a second call
for the same key against the resulting cache returns the same content, with no
generation call and no save, and leaves the cache untouched — whatever the
second call's generation oracle would produce. -/
theorem c1_second_call_cache_hit (g1 g2 : Except GenErr (DailyContext × Bool)) (key : String)
    (cache : Cache) (ctx : DailyContext) (gen sv : Bool)
    (h : (get_or_generate_context g1 key cache).1 = .ok (ctx, gen, sv)) :
    get_or_generate_context g2 key (get_or_generate_context g1 key cache).2 =
      (.ok (ctx, false, false), (get_or_generate_context g1 key cache).2) := by
  cases hload : load_today_context key cache with
  | some cached =>
    have h1 : get_or_generate_context g1 key cache = (.ok (cached, false, false), cache) := by
      simp [get_or_generate_context, hload]
    rw [h1] at h ⊢
    simp only [Except.ok.injEq, Prod.mk.injEq] at h
    obtain ⟨hc, -, -⟩ := h
    subst hc
    simp [get_or_generate_context, hload]
  | none =>
    cases g1 with
    | error e => simp [get_or_generate_context, hload] at h
    | ok pair =>
      obtain ⟨ctx0, b⟩ := pair
      have h1 : get_or_generate_context (.ok (ctx0, b)) key cache
          = (.ok (ctx0, true, true), save_today_context key ctx0 cache) := by
        simp [get_or_generate_context, hload]
      rw [h1] at h ⊢
      simp only [Except.ok.injEq, Prod.mk.injEq] at h
      obtain ⟨hc, -, -⟩ := h
      subst hc
      simp [get_or_generate_context, avb_load_save]

/-- C1 witness: a fresh cache, one generated context, then a second call whose
generation oracle would even fail — the cache hit returns the first content
with no generation and no save. -/
theorem c1_second_call_cache_hit_witness :
    (get_or_generate_context (.ok (⟨.jstr "a", .jstr "s", .jobj []⟩, true)) "2026-10-12" []).1
      = .ok (⟨.jstr "a", .jstr "s", .jobj []⟩, true, true) ∧
    get_or_generate_context (.error .jsonDecode) "2026-10-12"
        (get_or_generate_context (.ok (⟨.jstr "a", .jstr "s", .jobj []⟩, true)) "2026-10-12" []).2 =
      (.ok (⟨.jstr "a", .jstr "s", .jobj []⟩, false, false),
        (get_or_generate_context (.ok (⟨.jstr "a", .jstr "s", .jobj []⟩, true)) "2026-10-12" []).2) :=
  ⟨rfl, c1_second_call_cache_hit _ _ _ _ _ _ _ rfl⟩

/-- C2: a provider response whose body is not a syntactically valid JSON
object makes `generate_daily_context` fail, the error propagates through the
orchestrator, no save happens, and the cache entry for the key stays absent. -/
theorem c2_malformed_payload_no_save (cache : Cache) (key blob second : String)
    (parsed : Option JsonVal) (hobj : ∀ f, parsed ≠ some (JsonVal.jobj f))
    (hmiss : load_today_context key cache = none) :
    (∃ e, generate_daily_context (.ok blob) parsed second = .error e) ∧
    (∃ e, (get_or_generate_context (generate_daily_context (.ok blob) parsed second) key cache).1
        = .error e) ∧
    (get_or_generate_context (generate_daily_context (.ok blob) parsed second) key cache).2
      = cache ∧
    load_today_context key
      (get_or_generate_context (generate_daily_context (.ok blob) parsed second) key cache).2
      = none := by
  have hgen : ∃ e, generate_daily_context (.ok blob) parsed second = .error e := by
    cases parsed with
    | none => exact ⟨.jsonDecode, rfl⟩
    | some v =>
      cases v with
      | jobj f => exact absurd rfl (hobj f)
      | jnull => exact ⟨.attrGet, rfl⟩
      | jbool b => exact ⟨.attrGet, rfl⟩
      | jnum n => exact ⟨.attrGet, rfl⟩
      | jstr s => exact ⟨.attrGet, rfl⟩
      | jarr xs => exact ⟨.attrGet, rfl⟩
  obtain ⟨e, he⟩ := hgen
  have horch : get_or_generate_context (generate_daily_context (.ok blob) parsed second) key cache
      = (.error e, cache) := by
    rw [he]
    simp [get_or_generate_context, hmiss]
  exact ⟨⟨e, he⟩, ⟨e, by rw [horch]⟩, by rw [horch], by rw [horch]; exact hmiss⟩

/-- C2 witness: a valid-JSON array body (not an object) against an empty
cache. -/
theorem c2_malformed_payload_no_save_witness :
    (∃ e, generate_daily_context (.ok "news") (some (.jarr [])) "x" = .error e) ∧
    (∃ e, (get_or_generate_context (generate_daily_context (.ok "news") (some (.jarr [])) "x")
        "2026-10-12" []).1 = .error e) ∧
    (get_or_generate_context (generate_daily_context (.ok "news") (some (.jarr [])) "x")
        "2026-10-12" []).2 = [] ∧
    load_today_context "2026-10-12"
      (get_or_generate_context (generate_daily_context (.ok "news") (some (.jarr [])) "x")
        "2026-10-12" []).2 = none :=
  c2_malformed_payload_no_save [] "2026-10-12" "news" "x" (some (.jarr []))
    (fun _ h => JsonVal.noConfusion (Option.some.inj h)) rfl

/-- C8 counterexample: `"foo"` is neither a canonical key nor a display name,
yet `normalize_sign` returns `"Foo"`, not the token unchanged. -/
theorem c8_passthrough_counterexample :
    "foo" ∉ canonical_sign_keys ∧ "foo" ∉ SIGN_NAME_UA.map Prod.snd ∧
    normalize_sign "foo" ≠ "foo" ∧ normalize_sign "foo" = "Foo" := by
  refine ⟨by decide, by decide, by decide, by decide⟩

/-- C8 amended: for input whose stripped title-cased form is not a localized
display name, `normalize_sign` returns that normalized form un-mapped (the
token passes through the catalog untouched, but case and surrounding
whitespace are normalized; the caller validates membership). -/
theorem c8_passthrough_amended (s : String)
    (h : alistGet? SIGN_NAME_EN (pyTitle (pyStrip s)) = none) :
    normalize_sign s = pyTitle (pyStrip s) := by
  simp only [normalize_sign]
  rw [h]
  rfl

/-- C8 witness: the amended statement evaluated at `"foo"`. -/
theorem c8_passthrough_amended_witness :
    alistGet? SIGN_NAME_EN (pyTitle (pyStrip "foo")) = none ∧
    normalize_sign "foo" = pyTitle (pyStrip "foo") :=
  ⟨by decide, c8_passthrough_amended "foo" (by decide)⟩

/-- C5 counterexample: with an unset admin allow-list, caller 42 is not in the
allow-list, yet the handler broadcasts to the channel and never sends the
denial reply. -/
theorem c5_unauthorized_counterexample :
    42 ∉ parse_admin_ids none ∧
    handle_broadcast_now (parse_admin_ids none) 42 (some "@chan")
        (.ok ⟨"A", "S", [("Aries", "v")]⟩) [("Aries", ⟨[], ""⟩)] =
      .ok [.channelSend "A\nS\n\n♈ Овен: v", .reply "Надіслано в канал."] := by
  refine ⟨by decide, rfl⟩

/-- C5 amended: when the admin allow-list is non-empty, a caller not in it
gets exactly the plain denial reply and nothing is sent to the channel (an
empty allow-list disables the gate instead). -/
theorem c5_unauthorized_denied_amended (admin_ids : Finset ℕ) (caller : ℕ)
    (channel_id : Option String) (ctxRes : Except GenErr CtxRecord) (signs : SignsCfg)
    (hne : admin_ids ≠ ∅) (hnot : caller ∉ admin_ids) :
    handle_broadcast_now admin_ids caller channel_id ctxRes signs =
      .ok [.reply "Недостатньо прав для цієї команди."] := by
  have hg : broadcast_gate_rejects admin_ids caller = true := by
    simp [broadcast_gate_rejects, hne, hnot]
  simp [handle_broadcast_now, hg]

/-- C5 witness: allow-list `{7}`, caller 42. -/
theorem c5_unauthorized_denied_amended_witness :
    ({7} : Finset ℕ) ≠ ∅ ∧ 42 ∉ ({7} : Finset ℕ) ∧
    handle_broadcast_now {7} 42 (some "@chan") (.ok ⟨"A", "S", []⟩) [] =
      .ok [.reply "Недостатньо прав для цієї команди."] :=
  ⟨by decide, by decide, c5_unauthorized_denied_amended _ _ _ _ _ (by decide) (by decide)⟩

/-- C9 counterexample: with first-stage summary `"x"` and second-call body
`"y "`, the returned `global_summary` is the stripped `"y"`, not the second
call's output `"y "`. -/
theorem c9_summary_rewrite_counterexample :
    generate_daily_context (.ok "news") (some (.jobj [("global_summary", .jstr "x")])) "y " =
      .ok (⟨.jstr "", .jstr "y", .jobj []⟩, true) ∧
    JsonVal.jstr "y" ≠ JsonVal.jstr "y " := by
  refine ⟨rfl, fun h => absurd (JsonVal.jstr.inj h) (by decide)⟩

/-- C9 amended: the second completion call is issued exactly when the
first-stage `global_summary` string is non-empty; when issued, the returned
`global_summary` is the second call's body stripped of surrounding
whitespace, and when skipped it stays the empty string. -/
theorem c9_summary_rewrite_amended (blob second : String) (fields : List (String × JsonVal))
    (s : String) (h : pyDictGetD fields "global_summary" (.jstr "") = .jstr s) :
    generate_daily_context (.ok blob) (some (.jobj fields)) second =
      .ok ({ affirmation := pyDictGetD fields "affirmation" (.jstr ""),
             global_summary := if s = "" then .jstr "" else .jstr (pyStrip second),
             vibes := pyDictGetD fields "vibes" (.jobj []) },
           if s = "" then false else true) := by
  simp only [generate_daily_context]
  rw [h]
  by_cases hs : s = ""
  · subst hs
    simp [jTruthy]
  · have ht : jTruthy (.jstr s) = true := by simp [jTruthy, hs]
    rw [ht]
    simp [if_neg hs]

/-- C9 witness: summary `"x"`, second body `"y"`. -/
theorem c9_summary_rewrite_amended_witness :
    pyDictGetD [("global_summary", JsonVal.jstr "x")] "global_summary" (.jstr "") = .jstr "x" ∧
    generate_daily_context (.ok "news") (some (.jobj [("global_summary", .jstr "x")])) "y" =
      .ok (⟨.jstr "", if "x" = "" then .jstr "" else .jstr (pyStrip "y"), .jobj []⟩,
           if "x" = "" then false else true) :=
  ⟨rfl, c9_summary_rewrite_amended "news" "y" [("global_summary", JsonVal.jstr "x")] "x" rfl⟩

/-- C3 counterexample: the channel entity resolution raises while a feed with
two non-empty entries is configured — the aggregation stage propagates the
channel error instead of building the digest from the feed. -/
theorem c3_channel_error_propagates_counterexample :
    compute_news_blob
      { telethonImportOk := true, startExc := none, inviteRes := .ok [],
        getEntityRes := .error "RPCError", iterRes := fun _ => .ok [] }
      (some { api_id := some 1, api_hash := some "h", channel := some "@news", limit := 20 })
      (some "https://example.com/feed")
      [{ title := some "t1", summary := some "s1" }, { title := some "t2", summary := some "s2" }] =
      .error "RPCError" := rfl

/-- C3 amended: with a configured channel and feed, a channel fetch that
returns zero messages (unconfigured credentials, missing telethon, or no
non-empty messages) makes the digest come from the feed; a channel-fetch
exception, however, propagates out of the aggregation stage unchanged. -/
theorem c3_fallback_amended (env : TgEnv) (src : TelegramSource) (rss_url : Option String)
    (entries : List RssEntry) (hchan : optStrTruthy src.channel = true)
    (hrss : optStrTruthy rss_url = true) :
    (fetch_telegram_messages env src.api_id src.api_hash src.channel = .ok [] →
      compute_news_blob env (some src) rss_url entries = .ok (rss_blob entries)) ∧
    (∀ e, fetch_telegram_messages env src.api_id src.api_hash src.channel = .error e →
      compute_news_blob env (some src) rss_url entries = .error e) := by
  constructor
  · intro hf
    simp [compute_news_blob, hchan, hf, hrss]
  · intro e hf
    simp [compute_news_blob, hchan, hf]

/-- C3 witness: telethon missing (fetch yields `[]`), one feed entry. -/
theorem c3_fallback_amended_witness :
    fetch_telegram_messages
        { telethonImportOk := false, startExc := none, inviteRes := .ok [],
          getEntityRes := .ok 0, iterRes := fun _ => .ok [] }
        (some 1) (some "h") (some "@news") = .ok [] ∧
    compute_news_blob
        { telethonImportOk := false, startExc := none, inviteRes := .ok [],
          getEntityRes := .ok 0, iterRes := fun _ => .ok [] }
        (some { api_id := some 1, api_hash := some "h", channel := some "@news", limit := 20 })
        (some "https://example.com/feed") [{ title := some "t", summary := some "s" }] =
      .ok (rss_blob [{ title := some "t", summary := some "s" }]) :=
  ⟨rfl, (c3_fallback_amended
      { telethonImportOk := false, startExc := none, inviteRes := .ok [],
        getEntityRes := .ok 0, iterRes := fun _ => .ok [] }
      { api_id := some 1, api_hash := some "h", channel := some "@news", limit := 20 }
      (some "https://example.com/feed") [{ title := some "t", summary := some "s" }]
      rfl rfl).1 rfl⟩

/-- C6 counterexample: two registered users with signs and a configured
channel; the send to the first user's chat fails, and nothing at all is
delivered — neither the remaining user's message nor the channel messages —
although the plan held four sends. -/
theorem c6_send_failure_aborts_counterexample :
    broadcast_daily_vibes (fun d _ => decide (d ≠ Dest.user 10))
        ⟨"A", "S", [("Aries", "va"), ("Taurus", "vt")]⟩
        [(1, 10, some "Aries"), (2, 20, some "Taurus")] (some "@chan")
        [("Aries", ⟨[], ""⟩), ("Taurus", ⟨[], ""⟩)] = ([], false) ∧
    (broadcast_plan ⟨"A", "S", [("Aries", "va"), ("Taurus", "vt")]⟩
        [(1, 10, some "Aries"), (2, 20, some "Taurus")] (some "@chan")
        [("Aries", ⟨[], ""⟩), ("Taurus", ⟨[], ""⟩)]).length = 4 := by
  refine ⟨by decide, by decide⟩

/-- C6 amended: a failed send aborts the broadcast — users before the failing
send keep their deliveries, and the failing user, every later user and all
channel messages get nothing. -/
theorem c6_send_failure_aborts_amended (send : Dest → String → Bool) (context : CtxRecord)
    (channel_id : Option String) (signs : SignsCfg) (u1 : List UserRow) (u : UserRow)
    (u2 : List UserRow)
    (hok : ∀ p ∈ u1, send (Dest.user p.2.1) (user_broadcast_message context p.2.2) = true)
    (hfail : send (Dest.user u.2.1) (user_broadcast_message context u.2.2) = false) :
    broadcast_daily_vibes send context (u1 ++ u :: u2) channel_id signs =
      (u1.map (fun p => (Dest.user p.2.1, user_broadcast_message context p.2.2)), false) := by
  unfold broadcast_daily_vibes broadcast_plan
  rw [List.map_append, List.map_cons, List.append_assoc, List.cons_append]
  refine avb_runSends_fail_after send _ _ _ ?_ hfail
  intro p hp
  obtain ⟨q, hq, rfl⟩ := List.mem_map.mp hp
  exact hok q hq

/-- C6 witness: a send oracle that always fails, one user before none. -/
theorem c6_send_failure_aborts_amended_witness :
    broadcast_daily_vibes (fun _ _ => false) ⟨"A", "", []⟩
        ([] ++ (1, 10, some "Aries") :: [(2, 20, none)]) (some "@chan") [] = ([], false) :=
  c6_send_failure_aborts_amended _ _ _ _ [] _ _
    (fun p hp => absurd hp (List.not_mem_nil p)) rfl

/-- C4 counterexample: an affirmation with leading whitespace (`" a"`, still
non-empty) — the composed first message is stripped, so it does not begin
with the affirmation followed by the summary and a blank line. -/
theorem c4_composer_counterexample :
    build_channel_sign_messages ⟨" a", "S", [("Aries", "v")]⟩ [("Aries", ⟨[], ""⟩)] =
      ["a\nS\n\n♈ Овен: v"] ∧
    beginsWith "a\nS\n\n♈ Овен: v" (" a" ++ "\n" ++ "S" ++ "\n" ++ "\n") = false := by
  refine ⟨by decide, by decide⟩

/-- C4 amended: when the non-empty affirmation and every used vibe text carry
no surrounding whitespace (the code strips each composed message, which trims
exactly these boundary texts) and the summary is non-empty, the composer
returns one message per catalog sign in declared order; the first message is
exactly the affirmation, the summary, a blank line and the first sign's line,
and every later message is exactly its own sign line. -/
theorem c4_composer_amended (A S : String) (vibes : List (String × String)) (signs : SignsCfg)
    (s0 : String) (rest : List String) (hsigns : signs.map Prod.fst = s0 :: rest)
    (hA1 : A ≠ "") (hA2 : pyStrip A = A) (hS1 : S ≠ "")
    (hv : ∀ sg ∈ signs.map Prod.fst,
      vibe_for vibes sg ≠ "" ∧ pyStrip (vibe_for vibes sg) = vibe_for vibes sg) :
    build_channel_sign_messages ⟨A, S, vibes⟩ signs =
      (A ++ "\n" ++ S ++ "\n\n" ++ sign_line vibes s0) :: rest.map (sign_line vibes) ∧
    (build_channel_sign_messages ⟨A, S, vibes⟩ signs).length = signs.length := by
  have hs0 : s0 ∈ signs.map Prod.fst := by rw [hsigns]; exact List.mem_cons_self _ _
  obtain ⟨hv0ne, hv0fix⟩ := hv s0 hs0
  set L := sign_line vibes s0 with hL
  have hL1 : L ≠ "" := by
    intro h0
    have : L.data = [] := by rw [h0]
    rw [hL] at this
    have h3 : (sign_line vibes s0).data
        = (display_sign_with_emoji s0).data ++ (": ").data ++ (vibe_for vibes s0).data :=
      avb_append3_data _ _ _
    rw [h3] at this
    rcases List.append_eq_nil.mp this with ⟨h4, -⟩
    rcases List.append_eq_nil.mp h4 with ⟨-, h5⟩
    exact List.noConfusion h5
  have hLfix : pyStrip L = L := avb_sign_line_fixed vibes s0 hv0ne hv0fix
  have hlines : channel_lines ⟨A, S, vibes⟩ s0 true = [A, S, "", L] := by
    simp only [channel_lines, hL]
    rw [if_pos hA1, if_pos hS1]
    simp
  have hjoin : joinWith "\n" [A, S, "", L] = A ++ "\n" ++ (S ++ "\n" ++ ("" ++ "\n" ++ L)) := rfl
  have hXT : A ++ "\n" ++ (S ++ "\n" ++ ("" ++ "\n" ++ L)) = A ++ "\n" ++ S ++ "\n\n" ++ L := by
    apply String.ext
    simp [String.data_append, List.append_assoc]
  have hfix : pyStrip (A ++ "\n" ++ S ++ "\n\n" ++ L) = A ++ "\n" ++ S ++ "\n\n" ++ L := by
    apply String.ext
    show stripData (A ++ "\n" ++ S ++ "\n\n" ++ L).data = (A ++ "\n" ++ S ++ "\n\n" ++ L).data
    have hdata : (A ++ "\n" ++ S ++ "\n\n" ++ L).data
        = A.data ++ ('\n' :: (S.data ++ ['\n', '\n'])) ++ L.data := by
      simp [String.data_append, List.append_assoc]
    rw [hdata]
    exact avb_pyStrip_sandwich A L _ hA1 hA2 hL1 hLfix
  have hmain : build_channel_sign_messages ⟨A, S, vibes⟩ signs
      = (A ++ "\n" ++ S ++ "\n\n" ++ L) :: rest.map (sign_line vibes) := by
    unfold build_channel_sign_messages
    rw [hsigns]
    show pyStrip (joinWith "\n" (channel_lines ⟨A, S, vibes⟩ s0 true)) ::
        build_channel_go ⟨A, S, vibes⟩ false rest = _
    rw [hlines, hjoin, hXT, hfix]
    have hrest : build_channel_go ⟨A, S, vibes⟩ false rest = rest.map (sign_line vibes) := by
      have := avb_build_go_false ⟨A, S, vibes⟩ rest ?_
      · exact this
      · intro sg hsg
        have hmem : sg ∈ signs.map Prod.fst := by
          rw [hsigns]
          exact List.mem_cons_of_mem _ hsg
        obtain ⟨h1, h2⟩ := hv sg hmem
        exact avb_sign_line_fixed vibes sg h1 h2
    rw [hrest]
  refine ⟨hmain, ?_⟩
  rw [hmain]
  have hlen := congrArg List.length hsigns
  simp only [List.length_map, List.length_cons] at hlen ⊢
  omega

/-- C4 witness: affirmation `"A"`, summary `"S"`, a two-sign catalog with
explicit vibes. -/
theorem c4_composer_amended_witness :
    build_channel_sign_messages ⟨"A", "S", [("Aries", "x"), ("Taurus", "y")]⟩
        [("Aries", ⟨[], ""⟩), ("Taurus", ⟨[], ""⟩)] =
      ("A" ++ "\n" ++ "S" ++ "\n\n" ++ sign_line [("Aries", "x"), ("Taurus", "y")] "Aries") ::
        ["Taurus"].map (sign_line [("Aries", "x"), ("Taurus", "y")]) ∧
    (build_channel_sign_messages ⟨"A", "S", [("Aries", "x"), ("Taurus", "y")]⟩
        [("Aries", ⟨[], ""⟩), ("Taurus", ⟨[], ""⟩)]).length =
      ([("Aries", (⟨[], ""⟩ : SignData)), ("Taurus", ⟨[], ""⟩)] : SignsCfg).length :=
  c4_composer_amended "A" "S" [("Aries", "x"), ("Taurus", "y")]
    [("Aries", ⟨[], ""⟩), ("Taurus", ⟨[], ""⟩)] "Aries" ["Taurus"] rfl
    (by decide) (by decide) (by decide) (by decide)
